import Mathlib

/-
Verification of the real-time hazard pipeline backend:
shallow embedding of the frame-queue producers/consumers
(camera_manager.py, video_file_manager.py), the per-connection
streaming loop and detection filter (websocket_server.py), the
deduplication fingerprint (hazard_hash.py), the fast-cache client
(redis_client.py) and the geofence broadcaster (geofence_service.py),
together with theorems settling the specification claims.

Machine integers are modelled as Nat with explicit reductions mod 2^32
where the digest arithmetic overflows; Python floats are modelled as
rationals (signed zero and binary rounding artifacts are idealized);
fallible calls are modelled with Except / explicit outcome oracles.
-/

set_option maxRecDepth 4000

/- ## SHA-256 (the digest used by hashlib.sha256(...).hexdigest()).
Bytes and 32-bit words are Nat, word arithmetic is taken mod 2^32. -/

namespace SHA256

def M32 : ℕ := 4294967296

def rotr (n x : ℕ) : ℕ := ((x >>> n) ||| (x <<< (32 - n))) % M32

def bsig0 (x : ℕ) : ℕ := rotr 2 x ^^^ rotr 13 x ^^^ rotr 22 x

def bsig1 (x : ℕ) : ℕ := rotr 6 x ^^^ rotr 11 x ^^^ rotr 25 x

def ssig0 (x : ℕ) : ℕ := rotr 7 x ^^^ rotr 18 x ^^^ (x >>> 3)

def ssig1 (x : ℕ) : ℕ := rotr 17 x ^^^ rotr 19 x ^^^ (x >>> 10)

def chf (x y z : ℕ) : ℕ := (x &&& y) ^^^ ((x ^^^ (M32 - 1)) &&& z)

def majf (x y z : ℕ) : ℕ := (x &&& y) ^^^ (x &&& z) ^^^ (y &&& z)

/-- The 64 round constants of FIPS 180-4 (the first 32 bits of the
fractional parts of the cube roots of the first 64 primes), written in
decimal. -/
def K : List ℕ :=
  [1116352408, 1899447441, 3049323471, 3921009573, 961987163, 1508970993,
   2453635748, 2870763221, 3624381080, 310598401, 607225278, 1426881987,
   1925078388, 2162078206, 2614888103, 3248222580, 3835390401, 4022224774,
   264347078, 604807628, 770255983, 1249150122, 1555081692, 1996064986,
   2554220882, 2821834349, 2952996808, 3210313671, 3336571891, 3584528711,
   113926993, 338241895, 666307205, 773529912, 1294757372, 1396182291,
   1695183700, 1986661051, 2177026350, 2456956037, 2730485921, 2820302411,
   3259730800, 3345764771, 3516065817, 3600352804, 4094571909, 275423344,
   430227734, 506948616, 659060556, 883997877, 958139571, 1322822218,
   1537002063, 1747873779, 1955562222, 2024104815, 2227730452, 2361852424,
   2428436474, 2756734187, 3204031479, 3329325298]

/-- Big-endian byte list of length k for n. -/
def be (k n : ℕ) : List ℕ := (List.range k).reverse.map (fun i => (n >>> (8 * i)) % 256)

/-- SHA-256 padding: append 0x80, zeros, and the 64-bit big-endian bit length. -/
def padBytes (msg : List ℕ) : List ℕ :=
  let z := (119 - (msg.length % 64)) % 64
  msg ++ 128 :: List.replicate z 0 ++ be 8 (8 * msg.length)

/-- Group bytes into big-endian 32-bit words. -/
def toWords : List ℕ → List ℕ
  | a :: b :: c :: d :: rest => (((a * 256 + b) * 256 + c) * 256 + d) :: toWords rest
  | _ => []

/-- Extend a 16-word block by n more schedule words. -/
def extendMsg (w : List ℕ) : ℕ → List ℕ
  | 0 => w
  | n + 1 =>
    let v := extendMsg w n
    let i := v.length
    v ++ [(ssig1 (v.getD (i - 2) 0) + v.getD (i - 7) 0 +
           ssig0 (v.getD (i - 15) 0) + v.getD (i - 16) 0) % M32]

structure Hv where
  a : ℕ
  b : ℕ
  c : ℕ
  d : ℕ
  e : ℕ
  f : ℕ
  g : ℕ
  h : ℕ
deriving DecidableEq

def compressWord (s : Hv) (kw : ℕ × ℕ) : Hv :=
  let t1 := (s.h + bsig1 s.e + chf s.e s.f s.g + kw.1 + kw.2) % M32
  let t2 := (bsig0 s.a + majf s.a s.b s.c) % M32
  ⟨(t1 + t2) % M32, s.a, s.b, s.c, (s.d + t1) % M32, s.e, s.f, s.g⟩

def addHv (x y : Hv) : Hv :=
  ⟨(x.a + y.a) % M32, (x.b + y.b) % M32, (x.c + y.c) % M32, (x.d + y.d) % M32,
   (x.e + y.e) % M32, (x.f + y.f) % M32, (x.g + y.g) % M32, (x.h + y.h) % M32⟩

def compressBlock (s : Hv) (block : List ℕ) : Hv :=
  let w := extendMsg block 48
  addHv s ((K.zip w).foldl compressWord s)

def chunks16Aux : ℕ → List ℕ → List (List ℕ)
  | 0, _ => []
  | _, [] => []
  | fuel + 1, x :: rest => ((x :: rest).take 16) :: chunks16Aux fuel ((x :: rest).drop 16)

def chunks16 (l : List ℕ) : List (List ℕ) := chunks16Aux l.length l

/-- The initial hash values of FIPS 180-4 (the first 32 bits of the
fractional parts of the square roots of the first 8 primes), in
decimal. -/
def initHv : Hv :=
  ⟨1779033703, 3144134277, 1013904242, 2773480762,
   1359893119, 2600822924, 528734635, 1541459225⟩

def hexChar (n : ℕ) : Char := if n < 10 then Char.ofNat (48 + n) else Char.ofNat (87 + n)

def wordHex (n : ℕ) : String :=
  String.mk ((List.range 8).reverse.map (fun i => hexChar ((n >>> (4 * i)) % 16)))

/-- Lower-case hexadecimal SHA-256 digest of a byte list. -/
def sha256hexBytes (msg : List ℕ) : String :=
  let hv := (chunks16 (toWords (padBytes msg))).foldl compressBlock initHv
  wordHex hv.a ++ wordHex hv.b ++ wordHex hv.c ++ wordHex hv.d ++
  wordHex hv.e ++ wordHex hv.f ++ wordHex hv.g ++ wordHex hv.h

end SHA256

/-- hashlib.sha256(s.encode("utf-8")).hexdigest() for the ASCII strings
produced by the canonical JSON serialization (for ASCII text the UTF-8
bytes are the code points). -/
def sha256hex (s : String) : String := SHA256.sha256hexBytes (s.data.map Char.toNat)

example : sha256hex "" = "e3b0c44298fc1c149afbf4c8996fb92427ae41e4649b934ca495991b7852b855" := by
  decide

example : sha256hex "abc" = "ba7816bf8f01cfea414140de5dae2223b00361a396177a9cb410ff61f20015ad" := by
  decide

/- ## Python value model for hazard_hash.py.

A Python number is either an int or a float; floats are idealized as
exact decimal rationals `mantissa / 10^exp` (the values produced by
`round(x, p)`), since `json.dumps` renders them from their shortest
decimal representation.  Signed float zero is not modelled. -/

inductive PyNum where
  | pint (z : ℤ)
  | pfloat (mantissa : ℤ) (exp : ℕ)
deriving DecidableEq

def natStr (n : ℕ) : String := String.mk (Nat.toDigits 10 n)

def intStr (z : ℤ) : String := (if z < 0 then "-" else "") ++ natStr z.natAbs

def padZeros (s : String) (k : ℕ) : String :=
  String.mk (List.replicate (k - s.length) '0') ++ s

/-- Drop trailing decimal zeros of `mantissa / 10^exp`. -/
def stripFloatZeros : ℤ → ℕ → ℤ × ℕ
  | m, 0 => (m, 0)
  | m, e + 1 => if m % 10 = 0 then stripFloatZeros (m / 10) e else (m, e + 1)

/-- Python `repr` of the float `mantissa / 10^exp` (what json.dumps emits):
shortest decimal digits, always keeping at least one fractional digit. -/
def pyFloatRepr (mantissa : ℤ) (exp : ℕ) : String :=
  let p := stripFloatZeros mantissa exp
  let sign := if p.1 < 0 then "-" else ""
  let a := p.1.natAbs
  if p.2 = 0 then sign ++ natStr a ++ ".0"
  else sign ++ natStr (a / 10 ^ p.2) ++ "." ++ padZeros (natStr (a % 10 ^ p.2)) p.2

/-- json.dumps rendering of a Python number. -/
def pyNumJson : PyNum → String
  | .pint z => intStr z
  | .pfloat m e => pyFloatRepr m e

/-- Nearest integer, ties to even (the rounding used by Python round()),
computed on the numerator and denominator with integer arithmetic:
with f = ⌊q⌋ the fractional part q - f compares to 1/2 as
2 * (num - f * den) compares to den. -/
def roundHalfEven (q : ℚ) : ℤ :=
  let f := Int.fdiv q.num (q.den : ℤ)
  let r2 := 2 * (q.num - f * (q.den : ℤ))
  if r2 < (q.den : ℤ) then f
  else if (q.den : ℤ) < r2 then f + 1
  else if f % 2 = 0 then f else f + 1

/-- q * 10 ^ p as a rational, built directly from the fraction. -/
def scalePow10 (q : ℚ) (p : ℕ) : ℚ := mkRat (q.num * 10 ^ p) q.den

/-- Python round(x, p) on a float x: the decimal `m / 10^p` with m the
half-even rounding of x * 10^p. -/
def pyRound (q : ℚ) (p : ℕ) : PyNum := .pfloat (roundHalfEven (scalePow10 q p)) p

/-- A Python dict with optional float entries for the keys lat and lng
(the `location` argument of the hash functions). -/
structure PyLocation where
  lat? : Option ℚ
  lng? : Option ℚ
deriving DecidableEq

/-- `round(location.get(key, 0), precision)`: a present coordinate is a
float and is rounded to a float; a missing one defaults to int 0, and
`round(0, precision)` is the int 0. -/
def coordNum (c : Option ℚ) (precision : ℕ) : PyNum :=
  match c with
  | some q => pyRound q precision
  | none => .pint 0

/-- Naive datetime (tzinfo-free), as used by the hash functions. -/
structure PyDatetime where
  year : ℕ
  month : ℕ
  day : ℕ
  hour : ℕ
  minute : ℕ
  second : ℕ
  microsecond : ℕ
deriving DecidableEq

def pad2 (n : ℕ) : String := padZeros (natStr n) 2

/-- datetime.isoformat(): microseconds are printed only when nonzero. -/
def isoformat (t : PyDatetime) : String :=
  padZeros (natStr t.year) 4 ++ "-" ++ pad2 t.month ++ "-" ++ pad2 t.day ++ "T" ++
  pad2 t.hour ++ ":" ++ pad2 t.minute ++ ":" ++ pad2 t.second ++
  (if t.microsecond = 0 then "" else "." ++ padZeros (natStr t.microsecond) 6)

/-- str.lower() (ASCII model). -/
def pyLower (s : String) : String := String.mk (s.data.map Char.toLower)

def isPySpace (c : Char) : Bool :=
  c = ' ' || c = '\t' || c = '\n' || c = '\x0d' || c = '\x0b' || c = '\x0c'

/-- str.strip() (ASCII whitespace model). -/
def pyStrip (s : String) : String :=
  String.mk (((s.data.dropWhile isPySpace).reverse.dropWhile isPySpace).reverse)

/-- json.dumps escaping for one character (the categories and ISO
timestamps serialized here are plain ASCII). -/
def jsonEscapeChar (c : Char) : String :=
  if c = '"' then "\\\"" else if c = '\\' then "\\\\"
  else if c = '\n' then "\\n" else if c = '\t' then "\\t"
  else if c = '\x0d' then "\\r" else String.mk [c]

def jsonStringLit (s : String) : String :=
  "\"" ++ String.join (s.data.map jsonEscapeChar) ++ "\""

/- ## hazard_hash.py -/

/-- The optional "time_window" member: generate_hazard_hash rounds a
given timestamp with `timestamp.replace(second=0, microsecond=0)` and
stores its isoformat. -/
def timeFieldList : Option PyDatetime → List String
  | some ts =>
    ["\"time_window\":" ++ jsonStringLit (isoformat { ts with second := 0, microsecond := 0 })]
  | none => []

/-- The optional "bbox" member: present iff the bounding box is a
non-empty list with at least 4 entries; its first four entries are
rounded to 2 decimals. -/
def bboxFieldList : Option (List ℚ) → List String
  | some l =>
    if 4 ≤ l.length then
      ["\"bbox\":[" ++ String.intercalate "," ((l.take 4).map (fun x => pyNumJson (pyRound x 2))) ++ "]"]
    else []
  | none => []

def locationField (lat lng : PyNum) : String :=
  "\"location\":\x7b\"lat\":" ++ pyNumJson lat ++ ",\"lng\":" ++ pyNumJson lng ++ "\x7d"

/-- `json.dumps(hash_data, sort_keys=True, separators=(',', ':'))`:
keys in sorted order are bbox, location, time_window, type. -/
def hashDataJson (location : PyLocation) (hazard_typ : String)
    (timestamp : Option PyDatetime) (bounding_box : Option (List ℚ)) (precision : ℕ) : String :=
  "\x7b" ++
    String.intercalate ","
      (bboxFieldList bounding_box ++
       [locationField (coordNum location.lat? precision) (coordNum location.lng? precision)] ++
       timeFieldList timestamp ++
       ["\"type\":" ++ jsonStringLit (pyStrip (pyLower hazard_typ))]) ++
  "\x7d"

/-- hazard_hash.generate_hazard_hash (datetime timestamps; the
string-timestamp parsing branch is not modelled). -/
def generate_hazard_hash (location : PyLocation) (hazard_typ : String)
    (timestamp : Option PyDatetime := none) (bounding_box : Option (List ℚ) := none)
    (precision : ℕ := 4) : String :=
  "hazard:" ++ sha256hex (hashDataJson location hazard_typ timestamp bounding_box precision)

/-- `timestamp.replace(minute=timestamp.minute // w * w, second=0, microsecond=0)`. -/
def windowedTimestamp (ts : PyDatetime) (w : ℕ) : PyDatetime :=
  { ts with minute := ts.minute / w * w, second := 0, microsecond := 0 }

/-- hazard_hash.generate_time_bounded_hash (datetime timestamps). -/
def generate_time_bounded_hash (location : PyLocation) (hazard_typ : String)
    (timestamp : PyDatetime) (time_window_minutes : ℕ := 5) (precision : ℕ := 4) : String :=
  generate_hazard_hash location hazard_typ (some (windowedTimestamp timestamp time_window_minutes))
    none precision

/- Cross-checks of the embedding against the concrete behavior of
hazard_hash.py (JSON serialization and full digests). -/

example : hashDataJson ⟨none, none⟩ "pothole" none none 4 =
    "\x7b\"location\":\x7b\"lat\":0,\"lng\":0\x7d,\"type\":\"pothole\"\x7d" := by decide

example : generate_hazard_hash ⟨some (mkRat 123 10), some (mkRat (-500005) 100000)⟩ "DoG"
    (some ⟨2024, 12, 31, 23, 59, 59, 999999⟩)
    (some [mkRat 1005 1000, mkRat 2 1, mkRat 312345 100000, mkRat 45 10, mkRat 99 10]) 4 =
    "hazard:c1fef9960c427404e4cd4a30497ff689056697beae02008b0e60ff731490d795" := by decide

/-- C1: generate_time_bounded_hash is a pure, deterministic function of
the rounded location (4-decimal rounding via coordNum), the lowercased
and stripped category, and the floored time window
(minute // window_minutes * window_minutes with seconds and
microseconds zeroed, via windowedTimestamp): whenever those coincide
for two calls, the two hash strings are equal; identical inputs are the
reflexive instance. -/
theorem c1_time_bounded_hash_deterministic
    (l₁ l₂ : PyLocation) (c₁ c₂ : String) (t₁ t₂ : PyDatetime) (w p : ℕ) (hw : 0 < w)
    (hlat : coordNum l₁.lat? p = coordNum l₂.lat? p)
    (hlng : coordNum l₁.lng? p = coordNum l₂.lng? p)
    (hcat : pyStrip (pyLower c₁) = pyStrip (pyLower c₂))
    (hts : windowedTimestamp t₁ w = windowedTimestamp t₂ w) :
    generate_time_bounded_hash l₁ c₁ t₁ w p = generate_time_bounded_hash l₂ c₂ t₂ w p := by
  simp only [generate_time_bounded_hash, generate_hazard_hash, hashDataJson,
    hlat, hlng, hcat, hts]

/-- Witness for C1: two calls with different raw latitudes (0.12341 vs
0.123415, both rounding to 0.1234), categories "Pothole " vs "pothole",
and timestamps 03:07:30.000005 vs 03:09:00 (both in window 03:05) yield
the same hash. -/
theorem c1_witness :
    0 < 5 ∧
    generate_time_bounded_hash ⟨some (mkRat 12341 100000), some (mkRat 1 2)⟩ "Pothole "
        ⟨2025, 1, 2, 3, 7, 30, 5⟩ 5 4 =
      generate_time_bounded_hash ⟨some (mkRat 123415 1000000), some (mkRat 1 2)⟩ "pothole"
        ⟨2025, 1, 2, 3, 9, 0, 0⟩ 5 4 :=
  ⟨by decide,
   c1_time_bounded_hash_deterministic _ _ _ _ _ _ 5 4 (by decide) (by decide) (by decide)
     (by decide) (by decide)⟩

/-- C10 counterexample: with both coordinates absent the code
substitutes the Python int 0, which json.dumps serializes as "0",
whereas the float 0.0 serializes as "0.0"; the two canonical JSON
strings differ, so the SHA-256 based hashes differ.  This refutes
"its result equals the hash of the same inputs with that coordinate
set to 0.0". -/
theorem c10_counterexample :
    generate_hazard_hash ⟨none, none⟩ "pothole" none none 4 ≠
      generate_hazard_hash ⟨some (mkRat 0 1), some (mkRat 0 1)⟩ "pothole" none none 4 := by
  decide

/-- C10 amended: generate_hazard_hash substitutes the integer 0 (not
the float 0.0) for a missing coordinate, so all events with absent
coordinates, categories equal after lowercasing/stripping, and the same
time window and bounding box share a single fingerprint. -/
theorem c10_absent_coordinates_share_fingerprint
    (l₁ l₂ : PyLocation) (c₁ c₂ : String) (t : Option PyDatetime) (b : Option (List ℚ))
    (h₁ : l₁.lat? = none) (h₂ : l₂.lat? = none)
    (h₃ : l₁.lng? = none) (h₄ : l₂.lng? = none)
    (hcat : pyStrip (pyLower c₁) = pyStrip (pyLower c₂)) :
    generate_hazard_hash l₁ c₁ t b 4 = generate_hazard_hash l₂ c₂ t b 4 := by
  simp only [generate_hazard_hash, hashDataJson, h₁, h₂, h₃, h₄, hcat]

/-- Witness for C10 amended: two absent-coordinate events with
categories "Pothole" and " pothole" and no timestamp share one
fingerprint. -/
theorem c10_witness :
    (⟨none, none⟩ : PyLocation).lat? = none ∧
    generate_hazard_hash ⟨none, none⟩ "Pothole" none none 4 =
      generate_hazard_hash ⟨none, none⟩ " pothole" none none 4 :=
  ⟨by decide,
   c10_absent_coordinates_share_fingerprint _ _ _ _ none none (by decide) (by decide)
     (by decide) (by decide) (by decide)⟩

/- ## Frame queues (camera_manager.py / video_file_manager.py /
websocket_server.py).

queue.Queue is modelled by its contents plus maxsize; the head of the
list is the oldest entry (what get_nowait / get return).  The producer
thread is the only writer, so its read-modify-write sequences are
modelled as sequential steps. -/

structure PyQueue (α : Type) where
  maxsize : ℕ
  items : List α
deriving DecidableEq

def PyQueue.qsize (q : PyQueue α) : ℕ := q.items.length

/-- get_nowait(): the oldest item, or none for queue.Empty. -/
def PyQueue.getNowait? (q : PyQueue α) : Option (α × PyQueue α) :=
  match q.items with
  | [] => none
  | x :: rest => some (x, { q with items := rest })

/-- put_nowait(x): append, or none for queue.Full. -/
def PyQueue.putNowait? (q : PyQueue α) (x : α) : Option (PyQueue α) :=
  if q.items.length < q.maxsize then some { q with items := q.items ++ [x] } else none

/-- `while qsize() >= 1: get_nowait()` of camera_manager (drains all). -/
def cameraDrain : List α → List α
  | [] => []
  | _ :: rest => cameraDrain rest

/-- The shared put pattern of both producers: put_nowait the frame and,
on queue.Full, drop the oldest entry and re-put (on queue.Empty, pass). -/
def putEvictOldest (q : PyQueue α) (frame : α) : PyQueue α :=
  match q.putNowait? frame with
  | some q2 => q2
  | none =>
    match q.getNowait? with
    | some (_, q2) => (q2.putNowait? frame).getD q2
    | none => q

/-- camera_manager._capture_frames enqueue step (maxsize-1 queue):
drain the queue, then put the new frame. -/
def cameraEnqueue (q : PyQueue α) (frame : α) : PyQueue α :=
  putEvictOldest { q with items := cameraDrain q.items } frame

/-- video_file_manager._process_frames enqueue step (maxsize-5 queue):
if qsize() >= 4 drop the oldest entry, then put the new frame. -/
def videoEnqueue (q : PyQueue α) (frame : α) : PyQueue α :=
  let q1 :=
    if 4 ≤ q.qsize then
      match q.getNowait? with
      | some (_, r) => r
      | none => q
    else q
  putEvictOldest q1 frame

/-- websocket_endpoint live branch: `while not empty: frame = get()`. -/
def cameraTakeList (acc : Option α) : List α → Option α
  | [] => acc
  | x :: rest => cameraTakeList (some x) rest

def cameraTake (q : PyQueue α) : Option α × PyQueue α :=
  (cameraTakeList none q.items, { q with items := [] })

/-- The drop loop `for _ in range(n): get_nowait()` (stops on Empty). -/
def dropOldest (q : PyQueue α) : ℕ → PyQueue α
  | 0 => q
  | n + 1 =>
    match q.getNowait? with
    | some (_, r) => dropOldest r n
    | none => q

/-- websocket_endpoint video branch: if the queue is non-empty, drop
`max(0, qsize() - 2)` oldest entries, then `frame = get()`. -/
def videoTake (q : PyQueue α) : Option α × PyQueue α :=
  match q.items with
  | [] => (none, q)
  | _ :: _ =>
    let q1 := dropOldest q (q.qsize - 2)
    match q1.getNowait? with
    | some (f, q2) => (some f, q2)
    | none => (none, q1)

theorem cameraDrain_eq_nil (l : List α) : cameraDrain l = [] := by
  induction l with
  | nil => rfl
  | cons x rest ih => simpa [cameraDrain] using ih

theorem cameraEnqueue_maxsize_one (q : PyQueue α) (f : α) (hm : q.maxsize = 1) :
    cameraEnqueue q f = ⟨1, [f]⟩ := by
  simp [cameraEnqueue, putEvictOldest, PyQueue.putNowait?, cameraDrain_eq_nil, hm]

theorem videoEnqueue_step (q : PyQueue α) (f : α) (hm : q.maxsize = 5) (hb : q.qsize ≤ 4) :
    (videoEnqueue q f).maxsize = 5 ∧ (videoEnqueue q f).qsize ≤ 4 ∧
      (videoEnqueue q f).items.getLast? = some f := by
  rcases q with ⟨m, items⟩
  subst hm
  simp only [PyQueue.qsize] at hb ⊢
  by_cases h4 : 4 ≤ items.length
  · have h4e : items.length = 4 := le_antisymm hb h4
    match items, h4e with
    | a :: b :: c :: d :: [], _ =>
      simp [videoEnqueue, putEvictOldest, PyQueue.qsize, PyQueue.getNowait?, PyQueue.putNowait?]
  · have hlt : items.length < 4 := by omega
    simp only [videoEnqueue, PyQueue.qsize, if_neg (by omega : ¬ 4 ≤ items.length)]
    simp [putEvictOldest, PyQueue.putNowait?, if_pos (by omega : items.length < 5),
      PyQueue.qsize]
    omega

theorem cameraEnqueue_foldl (fs : List α) (f : α) (q : PyQueue α) (hm : q.maxsize = 1) :
    ((fs ++ [f]).foldl cameraEnqueue q).items = [f] := by
  induction fs generalizing q with
  | nil => simp [cameraEnqueue_maxsize_one q f hm]
  | cons x rest ih =>
    simp only [List.cons_append, List.foldl_cons]
    exact ih _ (by rw [cameraEnqueue_maxsize_one q x hm])

theorem videoEnqueue_foldl_inv (fs : List α) (q : PyQueue α) (hm : q.maxsize = 5)
    (hb : q.qsize ≤ 4) :
    (fs.foldl videoEnqueue q).maxsize = 5 ∧ (fs.foldl videoEnqueue q).qsize ≤ 4 := by
  induction fs generalizing q with
  | nil => exact ⟨hm, hb⟩
  | cons x rest ih =>
    obtain ⟨h1, h2, _⟩ := videoEnqueue_step q x hm hb
    simpa using ih _ h1 h2

theorem videoEnqueue_foldl_last (fs : List α) (f : α) (q : PyQueue α) (hm : q.maxsize = 5)
    (hb : q.qsize ≤ 4) :
    ((fs ++ [f]).foldl videoEnqueue q).items.getLast? = some f := by
  have hi := videoEnqueue_foldl_inv fs q hm hb
  rw [List.foldl_append]
  simpa using (videoEnqueue_step _ f hi.1 hi.2).2.2

/-- C2 counterexample: the video-file frame queue is created with
maxsize 5 and its enqueue step only evicts when qsize() >= 4, so after
the producer pushes four frames into the initially empty queue it holds
4 frames, more than the claimed capacity of 1-2. -/
theorem c2_counterexample :
    2 < (([1, 2, 3, 4] : List ℕ).foldl videoEnqueue ⟨5, []⟩).qsize := by decide

/-- C2 (amended): the live-camera frame queue (maxsize 1) never holds
more than one frame and after each enqueue holds exactly the newest
frame; the video-file frame queue (maxsize 5) is bounded by 4 frames,
and its enqueue also always succeeds without blocking, with the newest
frame present at the back after each enqueue. -/
theorem c2_frame_queue_bounds (fs : List ℕ) (f : ℕ) :
    ((fs ++ [f]).foldl cameraEnqueue ⟨1, []⟩).items = [f] ∧
    (fs.foldl videoEnqueue (⟨5, []⟩ : PyQueue ℕ)).qsize ≤ 4 ∧
    ((fs ++ [f]).foldl videoEnqueue (⟨5, []⟩ : PyQueue ℕ)).items.getLast? = some f :=
  ⟨cameraEnqueue_foldl fs f _ rfl,
   (videoEnqueue_foldl_inv fs _ rfl (by simp [PyQueue.qsize])).2,
   videoEnqueue_foldl_last fs f _ rfl (by simp [PyQueue.qsize])⟩

theorem cameraTakeList_getLast (l : List α) (acc : Option α) (h : l ≠ []) :
    cameraTakeList acc l = l.getLast? := by
  induction l generalizing acc with
  | nil => exact absurd rfl h
  | cons x rest ih =>
    cases rest with
    | nil => simp [cameraTakeList]
    | cons y ys =>
      rw [cameraTakeList, ih _ (by simp), List.getLast?_cons_cons]

theorem dropOldest_eq (q : PyQueue α) (k : ℕ) :
    dropOldest q k = { q with items := q.items.drop k } := by
  induction k generalizing q with
  | zero => simp [dropOldest]
  | succ n ih =>
    rcases q with ⟨m, items⟩
    cases items with
    | nil => simp [dropOldest, PyQueue.getNowait?]
    | cons x rest => simp [dropOldest, PyQueue.getNowait?, ih]

/-- C8 counterexample: with three frames buffered in the video-file
queue, the streaming loop drops only one and delivers frame 2 while the
strictly newer frame 3 is still available in the queue, refuting "the
frame taken ... is the newest frame available in that queue at read
time" for video mode. -/
theorem c8_counterexample :
    (videoTake (([1, 2, 3] : List ℕ).foldl videoEnqueue ⟨5, []⟩)).1 = some 2 ∧
    (([1, 2, 3] : List ℕ).foldl videoEnqueue (⟨5, []⟩ : PyQueue ℕ)).items.getLast? = some 3 ∧
    (some 2 : Option ℕ) ≠ some 3 := by decide

/-- C8 (amended): in live-camera mode the loop drains the queue and
delivers the newest buffered frame; in video mode it drops all but the
newest two buffered frames and delivers the older of those (possibly
one frame behind the newest), leaving in the queue only frames that
arrived strictly after the delivered one, so deliveries never regress
to an older frame in either mode. -/
theorem c8_newest_frame_delivery (q : PyQueue ℕ) (h : q.items ≠ []) :
    cameraTake q = (q.items.getLast?, ⟨q.maxsize, []⟩) ∧
    (videoTake q).1 = (q.items.drop (q.items.length - 2)).head? ∧
    (videoTake q).2.items = q.items.drop (q.items.length - 2 + 1) := by
  rcases q with ⟨m, items⟩
  cases items with
  | nil => exact absurd rfl h
  | cons x rest =>
    refine ⟨by simp [cameraTake, cameraTakeList_getLast _ _ h], ?_⟩
    have hne : (x :: rest).drop ((x :: rest).length - 2) ≠ [] := by
      intro hd
      have hle := List.drop_eq_nil_iff.mp hd
      simp only [List.length_cons] at hle
      omega
    obtain ⟨y, ys, hys⟩ := List.exists_cons_of_ne_nil hne
    have htail : (x :: rest).drop ((x :: rest).length - 2 + 1) = ys := by
      rw [← List.tail_drop, hys, List.tail_cons]
    simp only [videoTake, PyQueue.qsize, dropOldest_eq, List.length_cons]
    simp only [List.length_cons] at hys htail
    rw [PyQueue.getNowait?]
    simp only [hys, htail]
    simp

/-- Witness for C8 (amended) at the concrete queue [10, 20, 30]. -/
theorem c8_witness :
    cameraTake (⟨5, [10, 20, 30]⟩ : PyQueue ℕ) = (([10, 20, 30] : List ℕ).getLast?, ⟨5, []⟩) ∧
    (videoTake (⟨5, [10, 20, 30]⟩ : PyQueue ℕ)).1 =
      (([10, 20, 30] : List ℕ).drop (([10, 20, 30] : List ℕ).length - 2)).head? ∧
    (videoTake (⟨5, [10, 20, 30]⟩ : PyQueue ℕ)).2.items =
      ([10, 20, 30] : List ℕ).drop (([10, 20, 30] : List ℕ).length - 2 + 1) :=
  c8_newest_frame_delivery ⟨5, [10, 20, 30]⟩ (by decide)

/- ## camera_manager._capture_frames retry / reconnect loop.

One loop iteration is driven by the environment: the open attempt (when
the handle is closed) and the following read either fail or succeed, or
the body raises.  max_reconnect_attempts = 5; hitting the cap sets
camera_available = False and breaks out of the loop (modelled by
loopActive := false, after which steps are inert until a restart). -/

structure CamState where
  reconnect_attempts : ℕ
  capOpen : Bool
  camera_available : Bool
  loopActive : Bool
deriving DecidableEq

inductive CamEvent where
  | openFail
  | openOkReadOk
  | openOkReadFail
  | readOk
  | readFail
  | exc
deriving DecidableEq, Fintype

def camStep (s : CamState) (e : CamEvent) : CamState :=
  if s.loopActive = false then s
  else
    match e with
    | .openFail =>
      if 5 ≤ s.reconnect_attempts + 1 then
        { s with reconnect_attempts := s.reconnect_attempts + 1,
                 camera_available := false, loopActive := false }
      else { s with reconnect_attempts := s.reconnect_attempts + 1 }
    | .openOkReadOk => { s with capOpen := true, reconnect_attempts := 0 }
    | .openOkReadFail =>
      -- a successful open resets the counter to 0; the read failure then
      -- raises it to 1 (< 5), releases the handle and retries
      { s with reconnect_attempts := 1, capOpen := false }
    | .readOk => { s with reconnect_attempts := 0 }
    | .readFail =>
      if 5 ≤ s.reconnect_attempts + 1 then
        { s with reconnect_attempts := s.reconnect_attempts + 1,
                 camera_available := false, loopActive := false }
      else { s with reconnect_attempts := s.reconnect_attempts + 1, capOpen := false }
    | .exc =>
      if 5 ≤ s.reconnect_attempts + 1 then
        { s with reconnect_attempts := s.reconnect_attempts + 1,
                 camera_available := false, loopActive := false }
      else { s with reconnect_attempts := s.reconnect_attempts + 1 }

/-- start_stream() with a discovered camera: camera_available = True,
counter 0, loop running, handle not yet open. -/
def camInit : CamState := ⟨0, false, true, true⟩

def camRun (es : List CamEvent) : CamState := es.foldl camStep camInit

theorem camStep_inv (s : CamState) (e : CamEvent)
    (h : s.reconnect_attempts ≤ 5 ∧ (s.loopActive = true → s.reconnect_attempts ≤ 4)) :
    (camStep s e).reconnect_attempts ≤ 5 ∧
      ((camStep s e).loopActive = true → (camStep s e).reconnect_attempts ≤ 4) := by
  obtain ⟨h5, h4⟩ := h
  cases hl : s.loopActive with
  | false =>
    have hcs : camStep s e = s := by simp [camStep, hl]
    rw [hcs]
    exact ⟨h5, h4⟩
  | true =>
    have h4' := h4 hl
    by_cases hc : 5 ≤ s.reconnect_attempts + 1 <;>
      cases e <;> simp [camStep, hl, hc] <;> omega

theorem camRun_inv (es : List CamEvent) :
    (camRun es).reconnect_attempts ≤ 5 ∧
      ((camRun es).loopActive = true → (camRun es).reconnect_attempts ≤ 4) := by
  rw [camRun]
  induction es using List.reverseRecOn with
  | nil => simp [camInit]
  | append_singleton l e ih => rw [List.foldl_append, List.foldl_cons, List.foldl_nil]
                               exact camStep_inv _ e ih

/-- C4: along every event sequence of the capture loop the retry
counter stays at most 5, and at most 4 while the loop is still running;
failing the first four open attempts and succeeding on the fifth resets
the counter to 0 with the source streaming and available; failing five
consecutive open attempts clears camera_available and exits the loop,
a state that is terminal under further events (until restart). -/
theorem c4_retry_cap (es : List CamEvent) :
    ((camRun es).reconnect_attempts ≤ 5 ∧
      ((camRun es).loopActive = true → (camRun es).reconnect_attempts ≤ 4)) ∧
    camRun (List.replicate 4 .openFail ++ [.openOkReadOk]) =
      ⟨0, true, true, true⟩ ∧
    (camRun (List.replicate 5 .openFail)).camera_available = false ∧
    (camRun (List.replicate 5 .openFail)).loopActive = false ∧
    (∀ e, camStep (camRun (List.replicate 5 .openFail)) e =
      camRun (List.replicate 5 .openFail)) :=
  ⟨camRun_inv es, by decide, by decide, by decide, by decide⟩

/-- Witness for C4 at the event list [openFail]: the loop is still
running there, so the counter is at most 4 (it is 1). -/
theorem c4_witness :
    (camRun [CamEvent.openFail]).loopActive = true ∧
    (camRun [CamEvent.openFail]).reconnect_attempts ≤ 4 :=
  ⟨by decide, (c4_retry_cap [CamEvent.openFail]).1.2 (by decide)⟩

/- ## websocket_server.process_frame_with_models: driver-lane membership.

Box coordinates are floats (rationals); frame_width is the pixel width.
Python int() truncates toward zero (Int.tdiv); frame_width * 0.25 and
frame_width * 0.75 are the exact rationals width/4 and 3*width/4
(0.25 and 0.75 are dyadic, hence exact floats). -/

def pyIntTrunc (q : ℚ) : ℤ := Int.tdiv q.num (q.den : ℤ)

/-- left_boundary = int(frame_width * 0.25). -/
def left_boundary (frame_width : ℕ) : ℤ := pyIntTrunc (mkRat (frame_width : ℤ) 4)

/-- right_boundary = int(frame_width * 0.75). -/
def right_boundary (frame_width : ℕ) : ℤ := pyIntTrunc (mkRat (3 * (frame_width : ℤ)) 4)

/-- box_center_x = (x1 + x2) / 2. -/
def box_center_x (x1 x2 : ℚ) : ℚ := (x1 + x2) / 2

/-- `left_boundary <= box_center_x <= right_boundary` (a chained Python
comparison: both bounds inclusive). -/
def in_driver_lane (frame_width : ℕ) (x1 x2 : ℚ) : Bool :=
  decide ((left_boundary frame_width : ℚ) ≤ box_center_x x1 x2) &&
  decide (box_center_x x1 x2 ≤ (right_boundary frame_width : ℚ))

/-- C5: a detection is in the driver lane iff its horizontal box center
(x1+x2)/2 lies within [int(0.25*W), int(0.75*W)] inclusive; on a frame
of width 960 the bounds are 240 and 720, and the box [100,200,300,400]
has center x = 200, which is NOT in lane. -/
theorem c5_lane_membership (frame_width : ℕ) (x1 x2 : ℚ) :
    (in_driver_lane frame_width x1 x2 = true ↔
      ((left_boundary frame_width : ℚ) ≤ (x1 + x2) / 2 ∧
        (x1 + x2) / 2 ≤ (right_boundary frame_width : ℚ))) ∧
    left_boundary 960 = 240 ∧
    right_boundary 960 = 720 ∧
    box_center_x 100 300 = 200 ∧
    in_driver_lane 960 100 300 = false := by
  refine ⟨?_, by decide, by decide, by norm_num [box_center_x], ?_⟩
  · simp [in_driver_lane, box_center_x]
  · have hl : left_boundary 960 = 240 := by decide
    simp only [in_driver_lane, box_center_x, hl, Bool.and_eq_false_iff, decide_eq_false_iff_not]
    left
    norm_num

/- ## websocket_endpoint adaptive frame pacing (live mode).

frame_interval_s starts at 0.0167; after each successful frame send in
live mode, if the measured send time exceeds 0.025 s the interval
becomes min(0.05, interval + 0.003); if it is below 0.008 s it becomes
max(0.014, interval - 0.0005); otherwise it is unchanged.  The decimal
constants are written with mkRat. -/

def frame_interval_init : ℚ := mkRat 167 10000

def adaptInterval (frame_interval_s send_time : ℚ) : ℚ :=
  if send_time > mkRat 25 1000 then min (mkRat 50 1000) (frame_interval_s + mkRat 3 1000)
  else if send_time < mkRat 8 1000 then max (mkRat 14 1000) (frame_interval_s - mkRat 5 10000)
  else frame_interval_s

theorem adaptInterval_bounds (iv c : ℚ) (h1 : mkRat 14 1000 ≤ iv) (h2 : iv ≤ mkRat 50 1000) :
    mkRat 14 1000 ≤ adaptInterval iv c ∧ adaptInterval iv c ≤ mkRat 50 1000 := by
  have h3 : (0 : ℚ) ≤ mkRat 3 1000 := by decide
  have h5 : (0 : ℚ) ≤ mkRat 5 10000 := by decide
  have h145 : (mkRat 14 1000 : ℚ) ≤ mkRat 50 1000 := by decide
  unfold adaptInterval
  split
  · exact ⟨le_min h145 (by linarith), min_le_left _ _⟩
  · split
    · exact ⟨le_max_left _ _, max_le h145 (by linarith)⟩
    · exact ⟨h1, h2⟩

/-- C6: starting from the initial interval 0.0167 s, after any sequence
of measured send costs the adapted interval stays within
[0.014 s, 0.05 s] (each step clamps the +0.003 increase at 0.05 and the
-0.0005 decrease at 0.014, as adaptInterval defines). -/
theorem c6_adaptive_interval_bounds (costs : List ℚ) :
    mkRat 14 1000 ≤ costs.foldl adaptInterval frame_interval_init ∧
      costs.foldl adaptInterval frame_interval_init ≤ mkRat 50 1000 := by
  have key : ∀ (cs : List ℚ) (iv : ℚ), mkRat 14 1000 ≤ iv → iv ≤ mkRat 50 1000 →
      mkRat 14 1000 ≤ cs.foldl adaptInterval iv ∧ cs.foldl adaptInterval iv ≤ mkRat 50 1000 := by
    intro cs
    induction cs with
    | nil => intro iv h1 h2; exact ⟨h1, h2⟩
    | cons c rest ih =>
      intro iv h1 h2
      obtain ⟨g1, g2⟩ := adaptInterval_bounds iv c h1 h2
      simpa using ih _ g1 g2
  exact key costs frame_interval_init (by decide) (by decide)

/- ## redis_client.RedisClient.

The environment seen by one call: `connected` is the result of
is_connected() after ensure_connected() (false when the client is None
after a failed lazy connect, or the ping raises); existsResult /
setexResult are the outcomes of the client.exists / client.setex calls
(error = the call raised).  Both methods catch every exception and
return a Bool, so their embeddings are total. -/

structure RedisEnv where
  connected : Bool
  existsResult : Except Unit ℕ
  setexResult : Except Unit Unit

/-- RedisClient.check_duplicate: False when not connected; otherwise
`exists > 0`, and False if the lookup raises. -/
def check_duplicate (env : RedisEnv) : Bool :=
  if env.connected = false then false
  else
    match env.existsResult with
    | .error _ => false
    | .ok n => decide (0 < n)

/-- `ttl = ttl or HAZARD_KEY_TTL` (Python `or`: None and 0 both fall
back to the 1800 s default). -/
def effective_ttl (ttl : Option ℕ) : ℕ :=
  match ttl with
  | some t => if t = 0 then 1800 else t
  | none => 1800

/-- RedisClient.store_hazard_key: False when not connected; True after
a successful setex, False if setex raises. -/
def store_hazard_key (env : RedisEnv) (ttl : Option ℕ) : Bool :=
  if env.connected = false then false
  else
    match env.setexResult with
    | .error _ => false
    | .ok _ => true

/-- C7: when the fast cache is unavailable (client disconnected or the
connection attempt failed) check_duplicate returns False (treated as
not seen) and store_hazard_key returns False, and when the lookup or
store raises, each returns False as well; both embeddings are total
functions into Bool, so no exception escapes to the pipeline. -/
theorem c7_cache_unavailable_is_not_seen (env : RedisEnv) (ttl : Option ℕ) :
    (env.connected = false →
      check_duplicate env = false ∧ store_hazard_key env ttl = false) ∧
    (∀ e, env.existsResult = Except.error e → check_duplicate env = false) ∧
    (∀ e, env.setexResult = Except.error e → store_hazard_key env ttl = false) := by
  refine ⟨fun h => ⟨by simp [check_duplicate, h], by simp [store_hazard_key, h]⟩,
    fun e he => ?_, fun e he => ?_⟩
  · by_cases hc : env.connected = false <;> simp [check_duplicate, hc, he]
  · by_cases hc : env.connected = false <;> simp [store_hazard_key, hc, he]

/-- Witness for C7: a disconnected environment, and a connected one
whose lookup/store raise. -/
theorem c7_witness :
    (check_duplicate ⟨false, .ok 1, .ok ()⟩ = false ∧
      store_hazard_key ⟨false, .ok 1, .ok ()⟩ none = false) ∧
    check_duplicate ⟨true, .error (), .ok ()⟩ = false ∧
    store_hazard_key ⟨true, .ok 1, .error ()⟩ (some 60) = false :=
  ⟨(c7_cache_unavailable_is_not_seen ⟨false, .ok 1, .ok ()⟩ none).1 rfl,
   (c7_cache_unavailable_is_not_seen ⟨true, .error (), .ok ()⟩ none).2.1 () rfl,
   (c7_cache_unavailable_is_not_seen ⟨true, .ok 1, .error ()⟩ (some 60)).2.2 () rfl⟩

/- ## geofence_service.GeofenceService.broadcast_to_geofence.

The store and message bus are external collaborators: the zone query
result is an Except (the outer try returns 0 if it raises), and each
zone's publish is an oracle outcome — the mqtt publish either raises or
returns a success Bool (get_device_subscriptions_for_zone and
_log_broadcast catch internally and cannot raise). -/

inductive PublishOutcome where
  | raise
  | result (success : Bool)
deriving DecidableEq

structure BroadcastResult where
  count : ℕ
  published : List (ℕ × PyLocation)
  logged : List ℕ
deriving DecidableEq

/-- The per-zone loop: one publish per zone carrying the event
location; count and log only on returned success; a raise skips to the
next zone (`except: continue`). -/
def broadcastZones (loc : PyLocation) (outcome : ℕ → PublishOutcome) :
    List ℕ → BroadcastResult
  | [] => ⟨0, [], []⟩
  | z :: rest =>
    let r := broadcastZones loc outcome rest
    match outcome z with
    | .raise => { r with published := (z, loc) :: r.published }
    | .result true => ⟨r.count + 1, (z, loc) :: r.published, z :: r.logged⟩
    | .result false => { r with published := (z, loc) :: r.published }

/-- broadcast_to_geofence: returns 0 before doing anything if the
location is falsy or misses the lat or lng key; returns 0 if the zone
query fails; otherwise runs the per-zone loop and returns the count of
successfully notified zones. -/
def broadcast_to_geofence (location : Option PyLocation)
    (zonesResult : Except Unit (List ℕ)) (outcome : ℕ → PublishOutcome) : BroadcastResult :=
  match location with
  | none => ⟨0, [], []⟩
  | some loc =>
    if loc.lat?.isNone || loc.lng?.isNone then ⟨0, [], []⟩
    else
      match zonesResult with
      | .error _ => ⟨0, [], []⟩
      | .ok zones => broadcastZones loc outcome zones

/-- C3: with a valid located event, broadcast_to_geofence publishes one
message per zone containing the event location, counts exactly the
zones whose publish returned success (a raise in one zone does not
abort the remaining zones), and logs exactly the successful zones;
with an absent location or one missing the lat or lng key it returns 0
without publishing anything. -/
theorem c3_broadcast_per_zone (loc : PyLocation) (lat lng : ℚ)
    (hlat : loc.lat? = some lat) (hlng : loc.lng? = some lng)
    (zones : List ℕ) (oc : ℕ → PublishOutcome)
    (badLoc : Option PyLocation)
    (hbad : ∀ l, badLoc = some l → l.lat? = none ∨ l.lng? = none)
    (zr : Except Unit (List ℕ)) :
    broadcast_to_geofence badLoc zr oc = ⟨0, [], []⟩ ∧
    (broadcast_to_geofence (some loc) (.ok zones) oc).published =
      zones.map (fun z => (z, loc)) ∧
    (broadcast_to_geofence (some loc) (.ok zones) oc).count =
      zones.countP (fun z => decide (oc z = .result true)) ∧
    (broadcast_to_geofence (some loc) (.ok zones) oc).logged =
      zones.filter (fun z => decide (oc z = .result true)) := by
  have hvalid : broadcast_to_geofence (some loc) (.ok zones) oc = broadcastZones loc oc zones := by
    simp [broadcast_to_geofence, hlat, hlng]
  have hz : ∀ zs : List ℕ,
      (broadcastZones loc oc zs).published = zs.map (fun z => (z, loc)) ∧
      (broadcastZones loc oc zs).count = zs.countP (fun z => decide (oc z = .result true)) ∧
      (broadcastZones loc oc zs).logged = zs.filter (fun z => decide (oc z = .result true)) := by
    intro zs
    induction zs with
    | nil => simp [broadcastZones]
    | cons z rest ih =>
      obtain ⟨ih1, ih2, ih3⟩ := ih
      rcases ho : oc z with _ | b
      · simp [broadcastZones, ho, ih1, ih2, ih3, List.countP_cons, List.filter_cons]
      · cases b <;>
          simp [broadcastZones, ho, ih1, ih2, ih3, List.countP_cons, List.filter_cons]
  refine ⟨?_, by rw [hvalid]; exact (hz zones).1, by rw [hvalid]; exact (hz zones).2.1,
    by rw [hvalid]; exact (hz zones).2.2⟩
  cases badLoc with
  | none => rfl
  | some l =>
    rcases hbad l rfl with h | h <;> simp [broadcast_to_geofence, h]

/-- The publish oracle used by the C3 witness: publishing to zone 8
raises, the others succeed. -/
def ocWitness : ℕ → PublishOutcome := fun z => if z = 8 then .raise else .result true

/-- Witness for C3: location (1, 2), zones [7, 8, 9] where zone 8
raises: one message per zone, count 2, log [7, 9]; and the
lat-less location ⟨none, some 2⟩ as well as a missing location give 0
with nothing published. -/
theorem c3_witness :
    broadcast_to_geofence (some ⟨none, some (mkRat 2 1)⟩) (.ok [7, 8, 9]) ocWitness =
      ⟨0, [], []⟩ ∧
    (broadcast_to_geofence (some ⟨some (mkRat 1 1), some (mkRat 2 1)⟩) (.ok [7, 8, 9])
        ocWitness).published =
      [7, 8, 9].map (fun z => (z, (⟨some (mkRat 1 1), some (mkRat 2 1)⟩ : PyLocation))) ∧
    (broadcast_to_geofence (some ⟨some (mkRat 1 1), some (mkRat 2 1)⟩) (.ok [7, 8, 9])
        ocWitness).count = 2 ∧
    (broadcast_to_geofence (some ⟨some (mkRat 1 1), some (mkRat 2 1)⟩) (.ok [7, 8, 9])
        ocWitness).logged = [7, 9] := by
  obtain ⟨h1, h2, h3, h4⟩ := c3_broadcast_per_zone
    (⟨some (mkRat 1 1), some (mkRat 2 1)⟩ : PyLocation) (mkRat 1 1) (mkRat 2 1) rfl rfl
    [7, 8, 9] ocWitness (some ⟨none, some (mkRat 2 1)⟩)
    (fun l hl => by cases hl; exact Or.inl rfl) (.ok [7, 8, 9])
  refine ⟨h1, h2, h3.trans (by decide), h4.trans (by decide)⟩

/- ## websocket_server._handle_detection_result and the session loop.

The detection task outcome is an Except: ok carries the 4-tuple
(results, driver_lane_hazard_count, vis_frame, hazard_distances);
error means the awaited inference raised.  The Bool reports whether a
store_and_publish_detections task was scheduled (`if results:`).  The
loop body's break decision depends only on the three send steps (frame
bytes, JSON telemetry when due, keepalive ping when due); the detection
task runs in a separate asyncio task and its outcome is not consulted
by the loop. -/

structure DetCache where
  cached_results : List String
  cached_driver_lane_hazard_count : ℕ
  cached_hazard_distances : List ℚ
  cached_mode : String
  cached_vis_frame : Option ℕ
deriving DecidableEq

structure DetPayload where
  results : List String
  driver_lane_hazard_count : ℕ
  vis_frame : Option ℕ
  hazard_distances : List ℚ
deriving DecidableEq

def handle_detection_result (cache : DetCache) (mode : String)
    (det : Except Unit DetPayload) : DetCache × Bool :=
  match det with
  | .error _ => (cache, false)
  | .ok p =>
    ({ cached_results := p.results,
       cached_driver_lane_hazard_count := p.driver_lane_hazard_count,
       cached_hazard_distances := p.hazard_distances,
       cached_mode := mode,
       cached_vis_frame := p.vis_frame }, !p.results.isEmpty)

/-- The loop breaks iff the frame send fails, or the telemetry send is
due and fails, or the keepalive send is due and fails. -/
def loopBreaks (frameSendFails jsonDue jsonSendFails pingDue pingSendFails : Bool) : Bool :=
  frameSendFails || (jsonDue && jsonSendFails) || (pingDue && pingSendFails)

/-- One loop iteration: the cache update and store-scheduling from the
detection handler task (if a sample was taken), and whether the loop
continues, which is a function of the send outcomes alone. -/
def sessionStep (cache : DetCache) (mode : String) (det : Option (Except Unit DetPayload))
    (frameSendFails jsonDue jsonSendFails pingDue pingSendFails : Bool) :
    (DetCache × Bool) × Bool :=
  (match det with
   | some d => handle_detection_result cache mode d
   | none => (cache, false),
   !loopBreaks frameSendFails jsonDue jsonSendFails pingDue pingSendFails)

/-- C9: when the inference task raises, the session cache is left
unchanged and no store/publish task is scheduled; the loop iteration
with a failed detection behaves exactly like one with no detection at
all; and the loop continues iff no send to the viewer failed — the
detection outcome never terminates the loop. -/
theorem c9_inference_failure_is_isolated (cache : DetCache) (mode : String) (e : Unit)
    (fS jD jS pD pS : Bool) :
    handle_detection_result cache mode (.error e) = (cache, false) ∧
    sessionStep cache mode (some (.error e)) fS jD jS pD pS =
      sessionStep cache mode none fS jD jS pD pS ∧
    (sessionStep cache mode (some (.error e)) fS jD jS pD pS).2 =
      !(fS || (jD && jS) || (pD && pS)) :=
  ⟨rfl, rfl, rfl⟩
